import Mathlib

/-!
Shallow embedding of the work-tracker Active Session Synchronization Engine:
the timer state machine hook (useTimer.ts), the localStorage adapter
(storage.ts) and the database adapter (database.ts, active-timer section).
Timestamps are JavaScript `Date.now()` millisecond values, modelled as `Int`;
durations are seconds.  Asynchronous durable writes are modelled by Boolean
success flags, and the world after an operation is the state once every
dispatched write has settled.
-/

namespace WorkTracker

/-- `timerState` field stored on an active-timer record: 'running' | 'paused'. -/
inductive RunState
  | running
  | paused
deriving DecidableEq

/-- Hook-level timer state: 'idle' | 'running' | 'paused'. -/
inductive TimerState
  | idle
  | running
  | paused
deriving DecidableEq

/-- `ActiveTimerData` (types/index.ts): the replicated Session Record stored in
both localStorage and the Supabase `active_timers` table. -/
structure ActiveTimerData where
  id : String
  projectId : String
  startTime : Int
  description : Option String
  timerState : RunState
  pausedDuration : Int
  createdAt : Int
  updatedAt : Int
deriving DecidableEq

/-- `TimeEntry` (types/index.ts): a completed entry written to `time_entries`. -/
structure TimeEntry where
  id : String
  projectId : String
  startTime : Int
  endTime : Option Int
  description : Option String
  duration : Option Int
  createdAt : Int
  updatedAt : Int
deriving DecidableEq

/-- In-memory state of the `useTimer` hook: the `useState` values and the
mutable refs `startTimeRef` / `pausedTimeRef`. -/
structure HookState where
  elapsedTime : Int
  state : TimerState
  currentEntry : Option ActiveTimerData
  startTimeRef : Int
  pausedTimeRef : Int
  isSyncing : Bool
  syncError : Bool
deriving DecidableEq

/-- One execution context together with the two stores it writes:
`localStore` is the localStorage key `work-tracker-active-timer`,
`dbTimer` the owner's row in `active_timers`, `entries` the
`time_entries` table. -/
structure World where
  hook : HookState
  localStore : Option ActiveTimerData
  dbTimer : Option ActiveTimerData
  entries : List TimeEntry
deriving DecidableEq

def MILLISECONDS_PER_SECOND : Int := 1000

/-- `Math.floor((now - startTime) / 1000)` — JS floor division. -/
def elapsedSeconds (now startTime : Int) : Int :=
  Int.fdiv (now - startTime) MILLISECONDS_PER_SECOND

/-- The hook-state restoration shared by `initializeTimer` step 4 and the
non-null branch of `syncFromStorage`: adopt record `t` at instant `now`. -/
def restoreFrom (h : HookState) (now : Int) (t : ActiveTimerData) : HookState :=
  if t.timerState = RunState.running then
    { h with currentEntry := some t
             elapsedTime := elapsedSeconds now t.startTime
             state := TimerState.running
             startTimeRef := t.startTime
             pausedTimeRef := 0 }
  else
    { h with currentEntry := some t
             elapsedTime := t.pausedDuration
             state := TimerState.paused
             pausedTimeRef := t.pausedDuration
             startTimeRef := now - t.pausedDuration * MILLISECONDS_PER_SECOND }

/-- `syncFromStorage` (useTimer.ts): apply a record received from another
context to the in-memory hook state.  Performs no store writes. -/
def syncFromStorage (h : HookState) (now : Int) (timerData : Option ActiveTimerData) :
    HookState :=
  match timerData with
  | none =>
      { h with state := TimerState.idle
               elapsedTime := 0
               currentEntry := none
               pausedTimeRef := 0 }
  | some t => restoreFrom h now t

/-- Settlement of the fire-and-forget `saveActiveTimerToDb` promise in
`start`/`pause`/`resume`: when a user is authenticated the `.then` branch
clears both flags on success and the `.catch` branch records the error. -/
def afterDbWrite (h : HookState) (authed dbOk : Bool) : HookState :=
  if authed then { h with isSyncing := false, syncError := !dbOk } else h

/-- `start(projectId, description?)`: guarded by `getActiveTimer()` being
null; creates a fresh running record, writes localStorage synchronously and
dispatches the durable upsert. -/
def start (w : World) (now : Int) (projectId : String) (description : Option String)
    (authed dbOk : Bool) : World :=
  match w.localStore with
  | some _ => w
  | none =>
      let newEntry : ActiveTimerData :=
        { id := "timer-" ++ toString now
          projectId := projectId
          startTime := now
          description := description
          timerState := RunState.running
          pausedDuration := 0
          createdAt := now
          updatedAt := now }
      { w with
          hook := afterDbWrite
            { w.hook with currentEntry := some newEntry
                          state := TimerState.running
                          elapsedTime := 0
                          startTimeRef := now
                          pausedTimeRef := 0 } authed dbOk
          localStore := some newEntry
          dbTimer := if authed && dbOk then some newEntry else w.dbTimer }

/-- `pause()`: precondition `running` with a current entry; freezes the
elapsed time into `pausedDuration`, bumps `updatedAt := now`, dual-writes. -/
def pause (w : World) (now : Int) (authed dbOk : Bool) : World :=
  match w.hook.state, w.hook.currentEntry with
  | TimerState.running, some cur =>
      let updatedEntry : ActiveTimerData :=
        { cur with timerState := RunState.paused
                   pausedDuration := w.hook.elapsedTime
                   updatedAt := now }
      { w with
          hook := afterDbWrite
            { w.hook with state := TimerState.paused
                          pausedTimeRef := w.hook.elapsedTime
                          currentEntry := some updatedEntry } authed dbOk
          localStore := some updatedEntry
          dbTimer := if authed && dbOk then some updatedEntry else w.dbTimer }
  | _, _ => w

/-- `resume()`: precondition `paused` with a current entry; rebases
`startTime := now - pausedTimeRef * 1000`, bumps `updatedAt := now`,
dual-writes. -/
def resume (w : World) (now : Int) (authed dbOk : Bool) : World :=
  match w.hook.state, w.hook.currentEntry with
  | TimerState.paused, some cur =>
      let newStart := now - w.hook.pausedTimeRef * MILLISECONDS_PER_SECOND
      let updatedEntry : ActiveTimerData :=
        { cur with startTime := newStart
                   timerState := RunState.running
                   pausedDuration := w.hook.pausedTimeRef
                   updatedAt := now }
      { w with
          hook := afterDbWrite
            { w.hook with startTimeRef := newStart
                          state := TimerState.running
                          currentEntry := some updatedEntry } authed dbOk
          localStore := some updatedEntry
          dbTimer := if authed && dbOk then some updatedEntry else w.dbTimer }
  | _, _ => w

/-- The completed `TimeEntry` built at the top of `stop()`:
`{...currentEntry, endTime: now, duration: finalDuration, updatedAt: now}`. -/
def completedFrom (e : ActiveTimerData) (now finalDuration : Int) : TimeEntry :=
  { id := e.id
    projectId := e.projectId
    startTime := e.startTime
    endTime := some now
    description := e.description
    duration := some finalDuration
    createdAt := e.createdAt
    updatedAt := now }

/-- `stop()`: precondition not `idle` with a current entry.  Awaits
`saveTimeEntry(completedEntry)` first (`saveEntryOk`); on success clears
localStorage, then — when authenticated — awaits `clearActiveTimerFromDb()`
(`clearDbOk`); any failure lands in the `catch` block which only records the
sync error, keeping whatever state was already reached. -/
def stop (w : World) (now : Int) (authed saveEntryOk clearDbOk : Bool) : World :=
  match w.hook.state, w.hook.currentEntry with
  | TimerState.idle, _ => w
  | _, none => w
  | _, some cur =>
      let finalDuration := w.hook.elapsedTime
      let completedEntry := completedFrom cur now finalDuration
      if !saveEntryOk then
        { w with hook := { w.hook with isSyncing := false, syncError := true } }
      else if authed && !clearDbOk then
        { w with entries := completedEntry :: w.entries
                 localStore := none
                 hook := { w.hook with isSyncing := false, syncError := true } }
      else
        { w with entries := completedEntry :: w.entries
                 localStore := none
                 dbTimer := if authed then none else w.dbTimer
                 hook := { w.hook with state := TimerState.idle
                                       elapsedTime := 0
                                       currentEntry := none
                                       pausedTimeRef := 0
                                       isSyncing := false
                                       syncError := false } }

/-- The interval callback installed while `state === 'running'`: recompute
`Math.floor((now - startTimeRef.current) / 1000)` and republish it via
`setElapsedTime`; nothing else. -/
def tickEffect (w : World) (now : Int) : World :=
  if w.hook.state = TimerState.running then
    { w with hook := { w.hook with elapsedTime := elapsedSeconds now w.hook.startTimeRef } }
  else w

/-- The `subscribeToActiveTimer` callback (realtime change-feed handler):
reads `getActiveTimer()`; discards the event when both records exist with
equal `updatedAt`; on a delete event clears hook state and localStorage;
otherwise applies the incoming record through `syncFromStorage`. -/
def realtimeCallback (w : World) (now : Int) (updatedTimer : Option ActiveTimerData) :
    World :=
  match w.localStore, updatedTimer with
  | some l, some u =>
      if l.updatedAt = u.updatedAt then w
      else { w with hook := syncFromStorage w.hook now (some u) }
  | _, none =>
      { w with hook := { w.hook with state := TimerState.idle
                                     elapsedTime := 0
                                     currentEntry := none
                                     pausedTimeRef := 0 }
               localStore := none }
  | none, some u => { w with hook := syncFromStorage w.hook now (some u) }

/-- `DatabaseError` raised by the database layer (database.ts). -/
inductive DbError
  | databaseError (msg : String)
deriving DecidableEq

/-- `getCurrentUserId` (database.ts): returns the session's user id or
throws `DatabaseError` when there is no authenticated session. -/
def getCurrentUserId (session : Option String) : Except DbError String :=
  match session with
  | none => Except.error (DbError.databaseError "User not authenticated. Please log in again.")
  | some uid => Except.ok uid

/-- 24 hours in milliseconds (database.ts `STALE_TIMER_THRESHOLD`). -/
def STALE_TIMER_THRESHOLD : Int := 24 * 60 * 60 * 1000

/-- Result of the active-timer fetch: the value returned to the caller and
the `active_timers` row as left behind by the call. -/
structure DbFetch where
  result : Option ActiveTimerData
  dbAfter : Option ActiveTimerData
deriving DecidableEq

/-- Body of `getActiveTimerFromDb` before its `catch`: authenticate, read the
row, evict it when `now - updatedAt` exceeds the 24h threshold (the delete
succeeding when `clearOk`; a failed delete throws and is caught outside). -/
def getActiveTimerFromDbBody (session : Option String) (db : Option ActiveTimerData)
    (now : Int) (clearOk : Bool) : Except DbError DbFetch :=
  match getCurrentUserId session with
  | Except.error e => Except.error e
  | Except.ok _ =>
      match db with
      | none => Except.ok ⟨none, none⟩
      | some timer =>
          if now - timer.updatedAt > STALE_TIMER_THRESHOLD then
            if clearOk then Except.ok ⟨none, none⟩
            else Except.error (DbError.databaseError "Failed to clear active timer")
          else Except.ok ⟨some timer, some timer⟩

/-- `getActiveTimerFromDb` (database.ts): the body wrapped in
`try/catch` — on any error it returns `null` and leaves the row alone
("Graceful degradation: Don't throw - return null on error"). -/
def getActiveTimerFromDb (session : Option String) (db : Option ActiveTimerData)
    (now : Int) (clearOk : Bool) : DbFetch :=
  match getActiveTimerFromDbBody session db now clearOk with
  | Except.ok r => r
  | Except.error _ => ⟨none, db⟩

/-- The `catch` block of `initializeTimer`: record the sync error and fall
back to restoring from localStorage only. -/
def fallbackInit (w : World) (now : Int) : World :=
  let h1 := { w.hook with syncError := true }
  match w.localStore with
  | some l => { w with hook := restoreFrom h1 now l }
  | none => { w with hook := h1 }

/-- `initializeTimer` (useTimer.ts mount effect): with no user, reset to
idle; otherwise fetch the durable record (staleness-evicting), read
localStorage, resolve the conflict by latest `updatedAt` (a strictly greater
durable timestamp wins, otherwise the local record is kept), propagate the
winner to the store that lost, and restore hook state from the winner.
`upsertOk` is the fate of the `saveActiveTimerToDb` call; its failure is the
only throw the surrounding `catch` can see. -/
def initializeTimer (w : World) (now : Int) (session : Option String)
    (clearOk upsertOk : Bool) : World :=
  match session with
  | none =>
      { w with hook := { w.hook with state := TimerState.idle
                                     elapsedTime := 0
                                     currentEntry := none } }
  | some _ =>
      let fetched := getActiveTimerFromDb session w.dbTimer now clearOk
      match fetched.result, w.localStore with
      | some d, some l =>
          if d.updatedAt > l.updatedAt then
            { w with dbTimer := fetched.dbAfter
                     localStore := some d
                     hook := restoreFrom w.hook now d }
          else if upsertOk then
            { w with dbTimer := some l
                     hook := restoreFrom w.hook now l }
          else fallbackInit { w with dbTimer := fetched.dbAfter } now
      | some d, none =>
          { w with dbTimer := fetched.dbAfter
                   localStore := some d
                   hook := restoreFrom w.hook now d }
      | none, some l =>
          if upsertOk then
            { w with dbTimer := some l
                     hook := restoreFrom w.hook now l }
          else fallbackInit { w with dbTimer := fetched.dbAfter } now
      | none, none => { w with dbTimer := fetched.dbAfter }

/-! ### Concrete fixtures used by witnesses and counterexamples -/

/-- A minimal record with a given `updatedAt`, `timerState` and
`pausedDuration`. -/
def timerRec (ts : Int) (rs : RunState) (pd : Int) : ActiveTimerData :=
  { id := "t"
    projectId := "P1"
    startTime := 0
    description := none
    timerState := rs
    pausedDuration := pd
    createdAt := 0
    updatedAt := ts }

def emptyHook : HookState :=
  { elapsedTime := 0
    state := TimerState.idle
    currentEntry := none
    startTimeRef := 0
    pausedTimeRef := 0
    isSyncing := false
    syncError := false }

def emptyWorld : World :=
  { hook := emptyHook, localStore := none, dbTimer := none, entries := [] }

/-- A world whose context holds record `t` in paused hook state, with `t`
present in both stores. -/
def worldHolding (t : ActiveTimerData) : World :=
  { hook := { emptyHook with state := TimerState.paused
                             currentEntry := some t
                             elapsedTime := t.pausedDuration
                             pausedTimeRef := t.pausedDuration }
    localStore := some t
    dbTimer := some t
    entries := [] }

/-- A world whose context holds record `t` in running hook state. -/
def worldRunning (t : ActiveTimerData) : World :=
  { hook := { emptyHook with state := TimerState.running
                             currentEntry := some t
                             startTimeRef := t.startTime }
    localStore := some t
    dbTimer := some t
    entries := [] }

/-- The record `start` creates at instant `now` (description omitted). -/
def startRecord (now : Int) (pid : String) : ActiveTimerData :=
  { id := "timer-" ++ toString now
    projectId := pid
    startTime := now
    description := none
    timerState := RunState.running
    pausedDuration := 0
    createdAt := now
    updatedAt := now }

/-! ### Theorems -/

lemma elapsedSeconds_exact (now s c : Int) (h : now - s = c * 1000) :
    elapsedSeconds now s = c := by
  rw [elapsedSeconds, MILLISECONDS_PER_SECOND, h]
  exact Int.mul_fdiv_cancel c (by norm_num)

/-- C7: an incoming change-feed insert/update event whose record's
`updatedAt` exactly equals the `updatedAt` of the record held in this
context's local store produces no state transition at all: in-memory hook
state, both stores and the tick baseline are left unchanged (the event is
discarded as an echo of this context's own write). -/
theorem echo_suppression (w : World) (now : Int) (l u : ActiveTimerData)
    (hl : w.localStore = some l) (h : l.updatedAt = u.updatedAt) :
    realtimeCallback w now (some u) = w := by
  simp [realtimeCallback, hl, h]

theorem echo_suppression_witness :
    (worldHolding (timerRec 5 RunState.paused 3)).localStore =
      some (timerRec 5 RunState.paused 3) ∧
    (timerRec 5 RunState.paused 3).updatedAt = (timerRec 5 RunState.running 0).updatedAt ∧
    realtimeCallback (worldHolding (timerRec 5 RunState.paused 3)) 99
      (some (timerRec 5 RunState.running 0)) = worldHolding (timerRec 5 RunState.paused 3) :=
  ⟨by decide, by decide,
    echo_suppression (worldHolding (timerRec 5 RunState.paused 3)) 99
      (timerRec 5 RunState.paused 3) (timerRec 5 RunState.running 0) (by decide) (by decide)⟩

/-- C9: a tick of the periodic interval while the hook is `running` only
recomputes `Math.floor((now - startTimeRef) / 1000)` and republishes it as
`elapsedTime`; it writes neither store, leaves the entries table alone, and
changes no field of the current Session Record nor any other hook field. -/
theorem tick_frame (w : World) (now : Int) (h : w.hook.state = TimerState.running) :
    (tickEffect w now).hook.elapsedTime = elapsedSeconds now w.hook.startTimeRef ∧
    (tickEffect w now).localStore = w.localStore ∧
    (tickEffect w now).dbTimer = w.dbTimer ∧
    (tickEffect w now).entries = w.entries ∧
    (tickEffect w now).hook.currentEntry = w.hook.currentEntry ∧
    (tickEffect w now).hook.state = w.hook.state ∧
    (tickEffect w now).hook.startTimeRef = w.hook.startTimeRef ∧
    (tickEffect w now).hook.pausedTimeRef = w.hook.pausedTimeRef := by
  simp [tickEffect, h]

theorem tick_frame_witness :
    (worldRunning (timerRec 5 RunState.running 0)).hook.state = TimerState.running ∧
    ((tickEffect (worldRunning (timerRec 5 RunState.running 0)) 4000).hook.elapsedTime =
        elapsedSeconds 4000 (worldRunning (timerRec 5 RunState.running 0)).hook.startTimeRef ∧
      (tickEffect (worldRunning (timerRec 5 RunState.running 0)) 4000).localStore =
        (worldRunning (timerRec 5 RunState.running 0)).localStore ∧
      (tickEffect (worldRunning (timerRec 5 RunState.running 0)) 4000).dbTimer =
        (worldRunning (timerRec 5 RunState.running 0)).dbTimer ∧
      (tickEffect (worldRunning (timerRec 5 RunState.running 0)) 4000).entries =
        (worldRunning (timerRec 5 RunState.running 0)).entries ∧
      (tickEffect (worldRunning (timerRec 5 RunState.running 0)) 4000).hook.currentEntry =
        (worldRunning (timerRec 5 RunState.running 0)).hook.currentEntry ∧
      (tickEffect (worldRunning (timerRec 5 RunState.running 0)) 4000).hook.state =
        (worldRunning (timerRec 5 RunState.running 0)).hook.state ∧
      (tickEffect (worldRunning (timerRec 5 RunState.running 0)) 4000).hook.startTimeRef =
        (worldRunning (timerRec 5 RunState.running 0)).hook.startTimeRef ∧
      (tickEffect (worldRunning (timerRec 5 RunState.running 0)) 4000).hook.pausedTimeRef =
        (worldRunning (timerRec 5 RunState.running 0)).hook.pausedTimeRef) :=
  ⟨by decide, tick_frame (worldRunning (timerRec 5 RunState.running 0)) 4000 (by decide)⟩

/-- C5: on load, a durable record whose `updatedAt` lies more than 24 hours
(`STALE_TIMER_THRESHOLD` ms) before `now` is never returned:
`getActiveTimerFromDb` issues the delete (effective when the store accepts
it) and returns `null`; a record at most 24 hours old is returned unchanged
with the store untouched. -/
theorem staleness_eviction (uid : String) (t : ActiveTimerData) (now : Int) (clearOk : Bool) :
    (now - t.updatedAt > STALE_TIMER_THRESHOLD →
      (getActiveTimerFromDb (some uid) (some t) now clearOk).result = none ∧
      (clearOk = true → (getActiveTimerFromDb (some uid) (some t) now clearOk).dbAfter = none)) ∧
    (now - t.updatedAt ≤ STALE_TIMER_THRESHOLD →
      getActiveTimerFromDb (some uid) (some t) now clearOk = ⟨some t, some t⟩) := by
  constructor
  · intro hstale
    constructor
    · simp [getActiveTimerFromDb, getActiveTimerFromDbBody, getCurrentUserId, hstale]
      cases clearOk <;> simp
    · intro hc
      simp [getActiveTimerFromDb, getActiveTimerFromDbBody, getCurrentUserId, hstale, hc]
  · intro hfresh
    simp [getActiveTimerFromDb, getActiveTimerFromDbBody, getCurrentUserId,
      not_lt.mpr hfresh]

theorem staleness_eviction_witness :
    ((1000000000 : Int) - (timerRec 7 RunState.running 0).updatedAt > STALE_TIMER_THRESHOLD ∧
      (getActiveTimerFromDb (some "u") (some (timerRec 7 RunState.running 0))
          1000000000 true).result = none ∧
      (getActiveTimerFromDb (some "u") (some (timerRec 7 RunState.running 0))
          1000000000 true).dbAfter = none) ∧
    ((500 : Int) - (timerRec 7 RunState.running 0).updatedAt ≤ STALE_TIMER_THRESHOLD ∧
      getActiveTimerFromDb (some "u") (some (timerRec 7 RunState.running 0)) 500 true =
        ⟨some (timerRec 7 RunState.running 0), some (timerRec 7 RunState.running 0)⟩) :=
  ⟨⟨by decide,
      ((staleness_eviction "u" (timerRec 7 RunState.running 0) 1000000000 true).1
        (by decide)).1,
      ((staleness_eviction "u" (timerRec 7 RunState.running 0) 1000000000 true).1
        (by decide)).2 rfl⟩,
    ⟨by decide,
      (staleness_eviction "u" (timerRec 7 RunState.running 0) 500 true).2 (by decide)⟩⟩

/-- C8 counterexample: with no authenticated session and a record present in
the durable store, `getActiveTimerFromDb` does not propagate any error to
its caller — it returns the perfectly normal `null` result (leaving the row
in place), even though its body raised the authentication `DatabaseError`. -/
theorem auth_fetch_returns_null_cex :
    getActiveTimerFromDb none (some (timerRec 7 RunState.running 0)) 50 true =
      ⟨none, some (timerRec 7 RunState.running 0)⟩ ∧
    getActiveTimerFromDbBody none (some (timerRec 7 RunState.running 0)) 50 true =
      Except.error (DbError.databaseError "User not authenticated. Please log in again.") := by
  constructor <;> rfl

/-- C8 amended: when no authenticated identity is available,
`getCurrentUserId` raises `DatabaseError` inside the body of
`getActiveTimerFromDb`, but the surrounding `catch` swallows every error and
the function returns `null` to its caller (durable store untouched) instead
of propagating the failure. -/
theorem auth_error_swallowed (db : Option ActiveTimerData) (now : Int) (clearOk : Bool) :
    getActiveTimerFromDbBody none db now clearOk =
      Except.error (DbError.databaseError "User not authenticated. Please log in again.") ∧
    getActiveTimerFromDb none db now clearOk = ⟨none, db⟩ := by
  constructor <;> simp [getActiveTimerFromDbBody, getActiveTimerFromDb, getCurrentUserId]

/-- C10: staleness eviction applies only to the durable copy.  If at
initialization the local store holds a record and the durable fetch yields
none — the durable copy being absent or just evicted as stale — the state
machine adopts the local record whatever its age and upserts it back into
the durable store, resurrecting it there. -/
theorem stale_local_resurrected (w : World) (l : ActiveTimerData) (uid : String)
    (now : Int) (clearOk : Bool)
    (hl : w.localStore = some l)
    (hdb : w.dbTimer = none ∨
      ∃ d, w.dbTimer = some d ∧ now - d.updatedAt > STALE_TIMER_THRESHOLD) :
    (initializeTimer w now (some uid) clearOk true).dbTimer = some l ∧
    (initializeTimer w now (some uid) clearOk true).hook.currentEntry = some l := by
  have hres : (getActiveTimerFromDb (some uid) w.dbTimer now clearOk).result = none := by
    rcases hdb with h | ⟨d, hd, hstale⟩
    · simp [getActiveTimerFromDb, getActiveTimerFromDbBody, getCurrentUserId, h]
    · simp only [getActiveTimerFromDb, getActiveTimerFromDbBody, getCurrentUserId, hd]
      cases clearOk <;> simp [hstale]
  simp only [initializeTimer, hres, hl]
  constructor
  · rfl
  · simp [restoreFrom]
    cases hrs : l.timerState <;> simp [hrs]

theorem stale_local_resurrected_witness :
    (worldHolding (timerRec 1 RunState.paused 9)).localStore =
      some (timerRec 1 RunState.paused 9) ∧
    ((worldHolding (timerRec 1 RunState.paused 9)).dbTimer = none ∨
      ∃ d, (worldHolding (timerRec 1 RunState.paused 9)).dbTimer = some d ∧
        (2000000000 : Int) - d.updatedAt > STALE_TIMER_THRESHOLD) ∧
    (initializeTimer (worldHolding (timerRec 1 RunState.paused 9)) 2000000000
        (some "u") true true).dbTimer = some (timerRec 1 RunState.paused 9) ∧
    (initializeTimer (worldHolding (timerRec 1 RunState.paused 9)) 2000000000
        (some "u") true true).hook.currentEntry = some (timerRec 1 RunState.paused 9) :=
  ⟨by decide,
    Or.inr ⟨timerRec 1 RunState.paused 9, by decide, by decide⟩,
    stale_local_resurrected (worldHolding (timerRec 1 RunState.paused 9))
      (timerRec 1 RunState.paused 9) "u" 2000000000 true (by decide)
      (Or.inr ⟨timerRec 1 RunState.paused 9, by decide, by decide⟩)⟩

/-- C4 counterexample: a `pause` performed at a clock reading equal to the
record's previous `updatedAt` (two mutations within one millisecond) writes
a record whose `updatedAt` equals — is not strictly greater than — the
previous write's timestamp. -/
theorem updatedAt_not_strict_cex :
    (worldRunning (timerRec 100 RunState.running 0)).localStore.map
        ActiveTimerData.updatedAt = some 100 ∧
    (pause (worldRunning (timerRec 100 RunState.running 0)) 100 true true).localStore.map
        ActiveTimerData.updatedAt = some 100 ∧
    ¬ ((100 : Int) > (100 : Int)) := by
  refine ⟨by decide, by decide, by decide⟩

/-- C4 amended: each mutation of an existing record (`pause` from `running`,
`resume` from `paused`) writes `updatedAt := now`, the clock reading at the
mutation; hence `updatedAt` strictly increases across consecutive writes
exactly when the clock has strictly advanced past the record's previous
`updatedAt` — the code does not itself enforce strictness for equal clock
readings. -/
theorem updatedAt_set_to_now (w : World) (now : Int) (authed dbOk : Bool)
    (cur : ActiveTimerData) :
    (w.hook.state = TimerState.running → w.hook.currentEntry = some cur →
      ∃ e, (pause w now authed dbOk).localStore = some e ∧ e.updatedAt = now ∧
        (cur.updatedAt < now → cur.updatedAt < e.updatedAt)) ∧
    (w.hook.state = TimerState.paused → w.hook.currentEntry = some cur →
      ∃ e, (resume w now authed dbOk).localStore = some e ∧ e.updatedAt = now ∧
        (cur.updatedAt < now → cur.updatedAt < e.updatedAt)) := by
  constructor
  · intro hs hc
    refine ⟨{ cur with timerState := RunState.paused
                       pausedDuration := w.hook.elapsedTime
                       updatedAt := now }, ?_, rfl, fun h => h⟩
    simp [pause, hs, hc]
  · intro hs hc
    refine ⟨{ cur with startTime := now - w.hook.pausedTimeRef * MILLISECONDS_PER_SECOND
                       timerState := RunState.running
                       pausedDuration := w.hook.pausedTimeRef
                       updatedAt := now }, ?_, rfl, fun h => h⟩
    simp [resume, hs, hc]

theorem updatedAt_set_to_now_witness :
    (worldRunning (timerRec 100 RunState.running 0)).hook.state = TimerState.running ∧
    (worldRunning (timerRec 100 RunState.running 0)).hook.currentEntry =
      some (timerRec 100 RunState.running 0) ∧
    ∃ e, (pause (worldRunning (timerRec 100 RunState.running 0)) 250 true true).localStore =
        some e ∧ e.updatedAt = 250 ∧
      ((timerRec 100 RunState.running 0).updatedAt < 250 →
        (timerRec 100 RunState.running 0).updatedAt < e.updatedAt) :=
  ⟨by decide, by decide,
    (updatedAt_set_to_now (worldRunning (timerRec 100 RunState.running 0)) 250 true true
      (timerRec 100 RunState.running 0)).1 (by decide) (by decide)⟩

/-- C3 counterexample: a context holding a local record with `updatedAt = 5`
receives a change-feed update carrying `updatedAt = 10`; after the handler
runs, the local store still holds the old record — it has not been
overwritten with the incoming one, so a sibling context reading the local
store does not see the newer record. -/
theorem remote_update_skips_local_store_cex :
    (timerRec 10 RunState.running 0).updatedAt > (timerRec 5 RunState.paused 3).updatedAt ∧
    (worldHolding (timerRec 5 RunState.paused 3)).localStore =
      some (timerRec 5 RunState.paused 3) ∧
    (realtimeCallback (worldHolding (timerRec 5 RunState.paused 3)) 777
        (some (timerRec 10 RunState.running 0))).localStore =
      some (timerRec 5 RunState.paused 3) := by
  refine ⟨by decide, by decide, by decide⟩

/-- C3 amended: on an insert/update event whose `updatedAt` differs from the
locally stored record's, the handler applies the incoming record to
in-memory hook state only (via `syncFromStorage`, which performs no store
writes); the local store keeps its old record and the durable copy is
untouched.  Only a delete event writes the local store (clearing it). -/
theorem remote_update_memory_only (w : World) (now : Int) (l u : ActiveTimerData)
    (hl : w.localStore = some l) (hne : u.updatedAt ≠ l.updatedAt) :
    (realtimeCallback w now (some u)).hook = syncFromStorage w.hook now (some u) ∧
    (realtimeCallback w now (some u)).hook.currentEntry = some u ∧
    (realtimeCallback w now (some u)).localStore = w.localStore ∧
    (realtimeCallback w now (some u)).dbTimer = w.dbTimer ∧
    (realtimeCallback w now none).localStore = none := by
  have hne' : l.updatedAt ≠ u.updatedAt := fun h => hne h.symm
  refine ⟨by simp [realtimeCallback, hl, hne'], ?_, by simp [realtimeCallback, hl, hne'],
    by simp [realtimeCallback, hl, hne'], by simp [realtimeCallback, hl]⟩
  simp only [realtimeCallback, hl, if_neg hne']
  simp [syncFromStorage, restoreFrom]
  cases hrs : u.timerState <;> simp [hrs]

theorem remote_update_memory_only_witness :
    (worldHolding (timerRec 5 RunState.paused 3)).localStore =
      some (timerRec 5 RunState.paused 3) ∧
    (timerRec 10 RunState.running 0).updatedAt ≠ (timerRec 5 RunState.paused 3).updatedAt ∧
    ((realtimeCallback (worldHolding (timerRec 5 RunState.paused 3)) 777
          (some (timerRec 10 RunState.running 0))).hook =
        syncFromStorage (worldHolding (timerRec 5 RunState.paused 3)).hook 777
          (some (timerRec 10 RunState.running 0)) ∧
      (realtimeCallback (worldHolding (timerRec 5 RunState.paused 3)) 777
          (some (timerRec 10 RunState.running 0))).hook.currentEntry =
        some (timerRec 10 RunState.running 0) ∧
      (realtimeCallback (worldHolding (timerRec 5 RunState.paused 3)) 777
          (some (timerRec 10 RunState.running 0))).localStore =
        (worldHolding (timerRec 5 RunState.paused 3)).localStore ∧
      (realtimeCallback (worldHolding (timerRec 5 RunState.paused 3)) 777
          (some (timerRec 10 RunState.running 0))).dbTimer =
        (worldHolding (timerRec 5 RunState.paused 3)).dbTimer ∧
      (realtimeCallback (worldHolding (timerRec 5 RunState.paused 3)) 777 none).localStore =
        none) :=
  ⟨by decide, by decide,
    remote_update_memory_only (worldHolding (timerRec 5 RunState.paused 3)) 777
      (timerRec 5 RunState.paused 3) (timerRec 10 RunState.running 0) (by decide) (by decide)⟩

/-- C1 counterexample: on the change-feed path the rule "the strictly
greater `updatedAt` wins, ties to local" does not hold — a context holding a
local record with `updatedAt = 10` receives an update carrying
`updatedAt = 5`, and the handler applies the strictly older incoming record
as the winner to in-memory state. -/
theorem reconciliation_paths_differ_cex :
    (timerRec 5 RunState.running 0).updatedAt < (timerRec 10 RunState.paused 3).updatedAt ∧
    (worldHolding (timerRec 10 RunState.paused 3)).localStore =
      some (timerRec 10 RunState.paused 3) ∧
    (realtimeCallback (worldHolding (timerRec 10 RunState.paused 3)) 777
        (some (timerRec 5 RunState.running 0))).hook.currentEntry =
      some (timerRec 5 RunState.running 0) := by
  refine ⟨by decide, by decide, by decide⟩

/-- C1 amended: the two paths do not reconcile identically.  On the startup
path (`initializeTimer`, both records present and the durable one not
stale), the record with strictly greater `updatedAt` wins and on exact
equality the local record wins, the winner being propagated to the losing
store.  On the change-feed path, an event with `updatedAt` equal to the
local record is discarded, but any other incoming record — even one with a
strictly smaller `updatedAt` — is applied to in-memory state. -/
theorem reconciliation_paths (w : World) (now : Int) (uid : String)
    (d l u : ActiveTimerData) (clearOk : Bool)
    (hdb : w.dbTimer = some d) (hl : w.localStore = some l)
    (hfresh : now - d.updatedAt ≤ STALE_TIMER_THRESHOLD) :
    (d.updatedAt > l.updatedAt →
      (initializeTimer w now (some uid) clearOk true).hook.currentEntry = some d ∧
      (initializeTimer w now (some uid) clearOk true).localStore = some d ∧
      (initializeTimer w now (some uid) clearOk true).dbTimer = some d) ∧
    (d.updatedAt ≤ l.updatedAt →
      (initializeTimer w now (some uid) clearOk true).hook.currentEntry = some l ∧
      (initializeTimer w now (some uid) clearOk true).localStore = some l ∧
      (initializeTimer w now (some uid) clearOk true).dbTimer = some l) ∧
    (u.updatedAt = l.updatedAt → realtimeCallback w now (some u) = w) ∧
    (u.updatedAt ≠ l.updatedAt →
      (realtimeCallback w now (some u)).hook.currentEntry = some u) := by
  have hres : getActiveTimerFromDb (some uid) w.dbTimer now clearOk = ⟨some d, some d⟩ := by
    simp [getActiveTimerFromDb, getActiveTimerFromDbBody, getCurrentUserId, hdb,
      not_lt.mpr hfresh]
  have hcur : ∀ h : HookState, (restoreFrom h now d).currentEntry = some d := by
    intro h
    cases hrs : d.timerState <;> simp [restoreFrom, hrs]
  have hcurl : ∀ h : HookState, (restoreFrom h now l).currentEntry = some l := by
    intro h
    cases hrs : l.timerState <;> simp [restoreFrom, hrs]
  refine ⟨?_, ?_, ?_, ?_⟩
  · intro hgt
    simp only [initializeTimer, hres, hl]
    simp [hgt, hcur]
  · intro hle
    simp only [initializeTimer, hres, hl]
    simp [not_lt.mpr hle, hcurl, hl]
  · intro heq
    simp [realtimeCallback, hl, heq.symm]
  · intro hne
    have hne' : l.updatedAt ≠ u.updatedAt := fun h => hne h.symm
    simp only [realtimeCallback, hl, if_neg hne']
    simp only [syncFromStorage]
    cases hrs : u.timerState <;> simp [restoreFrom, hrs]

theorem reconciliation_paths_witness :
    (worldHolding (timerRec 10 RunState.paused 3)).dbTimer =
      some (timerRec 10 RunState.paused 3) ∧
    (worldHolding (timerRec 10 RunState.paused 3)).localStore =
      some (timerRec 10 RunState.paused 3) ∧
    (1000 : Int) - (timerRec 10 RunState.paused 3).updatedAt ≤ STALE_TIMER_THRESHOLD ∧
    ((timerRec 10 RunState.paused 3).updatedAt ≤ (timerRec 10 RunState.paused 3).updatedAt →
      (initializeTimer (worldHolding (timerRec 10 RunState.paused 3)) 1000 (some "u")
          true true).hook.currentEntry = some (timerRec 10 RunState.paused 3) ∧
      (initializeTimer (worldHolding (timerRec 10 RunState.paused 3)) 1000 (some "u")
          true true).localStore = some (timerRec 10 RunState.paused 3) ∧
      (initializeTimer (worldHolding (timerRec 10 RunState.paused 3)) 1000 (some "u")
          true true).dbTimer = some (timerRec 10 RunState.paused 3)) :=
  ⟨by decide, by decide, by decide,
    (reconciliation_paths (worldHolding (timerRec 10 RunState.paused 3)) 1000 "u"
      (timerRec 10 RunState.paused 3) (timerRec 10 RunState.paused 3)
      (timerRec 4 RunState.running 0) true (by decide) (by decide) (by decide)).2.1⟩

/-- C2 counterexample: in `stop()` from a paused state, when the
Completed-Entry write succeeds but the subsequent durable clear
(`clearActiveTimerFromDb`) fails, the call returns with the Session Record
already removed from the Fast Local Store and the Completed Entry already
written — the operation is half-applied, refuting "if any durable write
fails ... the record is still present in both stores and nothing is
half-applied". -/
theorem stop_half_applied_cex :
    (worldHolding (timerRec 10 RunState.paused 3)).hook.state ≠ TimerState.idle ∧
    (stop (worldHolding (timerRec 10 RunState.paused 3)) 900 true true false).localStore =
      none ∧
    (stop (worldHolding (timerRec 10 RunState.paused 3)) 900 true true false).entries ≠
      (worldHolding (timerRec 10 RunState.paused 3)).entries ∧
    (stop (worldHolding (timerRec 10 RunState.paused 3)) 900 true true false).hook.state ≠
      TimerState.idle := by
  refine ⟨by decide, by decide, by decide, by decide⟩

/-- C2 amended: if the Completed-Entry write itself fails, `stop()` leaves
everything intact — both stores, the non-idle in-memory state and the
entries table are unchanged, so the call is safely retryable; the Completed
Entry is always written before the Session Record is cleared from either
store (any change to a store implies the entry is in the table).  However,
when the Completed-Entry write succeeds and only the durable clear fails,
the local store has already been cleared and the Completed Entry persists
while the in-memory state stays non-idle. -/
theorem stop_durability (w : World) (now : Int) (authed clearDbOk : Bool)
    (cur : ActiveTimerData)
    (hstate : w.hook.state ≠ TimerState.idle)
    (hcur : w.hook.currentEntry = some cur) :
    ((stop w now authed false clearDbOk).localStore = w.localStore ∧
      (stop w now authed false clearDbOk).dbTimer = w.dbTimer ∧
      (stop w now authed false clearDbOk).entries = w.entries ∧
      (stop w now authed false clearDbOk).hook.state = w.hook.state ∧
      (stop w now authed false clearDbOk).hook.currentEntry = some cur) ∧
    ((stop w now true true false).entries =
        completedFrom cur now w.hook.elapsedTime :: w.entries ∧
      (stop w now true true false).localStore = none ∧
      (stop w now true true false).dbTimer = w.dbTimer ∧
      (stop w now true true false).hook.state = w.hook.state) ∧
    (∀ ok1 ok2 : Bool,
      ((stop w now authed ok1 ok2).localStore ≠ w.localStore ∨
        (stop w now authed ok1 ok2).dbTimer ≠ w.dbTimer) →
      (stop w now authed ok1 ok2).entries =
        completedFrom cur now w.hook.elapsedTime :: w.entries) := by
  cases hs : w.hook.state with
  | idle => exact absurd hs hstate
  | running =>
      refine ⟨by simp [stop, hs, hcur], by simp [stop, hs, hcur], ?_⟩
      intro ok1 ok2 hchange
      cases ok1 with
      | false => simp [stop, hs, hcur] at hchange
      | true =>
          cases ok2 with
          | false => cases authed <;> simp [stop, hs, hcur]
          | true => cases authed <;> simp [stop, hs, hcur]
  | paused =>
      refine ⟨by simp [stop, hs, hcur], by simp [stop, hs, hcur], ?_⟩
      intro ok1 ok2 hchange
      cases ok1 with
      | false => simp [stop, hs, hcur] at hchange
      | true =>
          cases ok2 with
          | false => cases authed <;> simp [stop, hs, hcur]
          | true => cases authed <;> simp [stop, hs, hcur]

theorem stop_durability_witness :
    (worldHolding (timerRec 10 RunState.paused 3)).hook.state ≠ TimerState.idle ∧
    (worldHolding (timerRec 10 RunState.paused 3)).hook.currentEntry =
      some (timerRec 10 RunState.paused 3) ∧
    ((stop (worldHolding (timerRec 10 RunState.paused 3)) 900 true false true).localStore =
        (worldHolding (timerRec 10 RunState.paused 3)).localStore ∧
      (stop (worldHolding (timerRec 10 RunState.paused 3)) 900 true false true).dbTimer =
        (worldHolding (timerRec 10 RunState.paused 3)).dbTimer ∧
      (stop (worldHolding (timerRec 10 RunState.paused 3)) 900 true false true).entries =
        (worldHolding (timerRec 10 RunState.paused 3)).entries ∧
      (stop (worldHolding (timerRec 10 RunState.paused 3)) 900 true false true).hook.state =
        (worldHolding (timerRec 10 RunState.paused 3)).hook.state ∧
      (stop (worldHolding (timerRec 10 RunState.paused 3)) 900 true
          false true).hook.currentEntry = some (timerRec 10 RunState.paused 3)) :=
  ⟨by decide, by decide,
    (stop_durability (worldHolding (timerRec 10 RunState.paused 3)) 900 true true
      (timerRec 10 RunState.paused 3) (by decide) (by decide)).1⟩

/-- C6: a session that runs `T1` seconds, is paused (banking
`pausedDuration = T1`), stays paused for an arbitrary wall-clock gap, is
resumed at any instant `r` (rebasing `startTime = r - T1 * 1000` ms) and
runs `T2` more seconds before `stop()`, records a final duration of exactly
`T1 + T2`, independent of the paused gap.  In particular the scenario start
at `t = 0`, pause at `t = 100` s, resume at `t = 150` s, stop at `t = 220` s
yields `pausedDuration = 100`, rebased `startTime = 50000` ms (second 50)
and a recorded duration of `170`. -/
theorem elapsed_time_correctness :
    (∀ (s0 r : Int) (T1 T2 : Nat) (pid : String),
      ((pause (tickEffect (start emptyWorld s0 pid none true true) (s0 + (T1:Int) * 1000))
          (s0 + (T1:Int) * 1000) true true).localStore.map ActiveTimerData.pausedDuration =
        some (T1 : Int)) ∧
      ((resume (pause (tickEffect (start emptyWorld s0 pid none true true)
            (s0 + (T1:Int) * 1000)) (s0 + (T1:Int) * 1000) true true) r true
          true).hook.startTimeRef = r - (T1:Int) * 1000) ∧
      ((stop (tickEffect (resume (pause (tickEffect (start emptyWorld s0 pid none true true)
              (s0 + (T1:Int) * 1000)) (s0 + (T1:Int) * 1000) true true) r true true)
            (r + (T2:Int) * 1000)) (r + (T2:Int) * 1000) true true true).entries.map
          TimeEntry.duration = [some ((T1:Int) + (T2:Int))])) ∧
    ((pause (tickEffect (start emptyWorld 0 "P1" none true true) 100000)
        100000 true true).localStore.map ActiveTimerData.pausedDuration = some 100) ∧
    ((resume (pause (tickEffect (start emptyWorld 0 "P1" none true true) 100000)
        100000 true true) 150000 true true).hook.startTimeRef = 50000) ∧
    ((stop (tickEffect (resume (pause (tickEffect (start emptyWorld 0 "P1" none true true)
          100000) 100000 true true) 150000 true true) 220000) 220000 true true
        true).entries.map TimeEntry.duration = [some 170]) := by
  refine ⟨fun s0 r T1 T2 pid => ?_, by decide, by decide, by decide⟩
  have e1 : elapsedSeconds (s0 + (T1:Int) * 1000) s0 = (T1:Int) :=
    elapsedSeconds_exact _ _ _ (by ring)
  have e2 : elapsedSeconds (r + (T2:Int) * 1000) (r - (T1:Int) * 1000) = (T1:Int) + T2 :=
    elapsedSeconds_exact _ _ _ (by ring)
  have h1 : start emptyWorld s0 pid none true true =
      { hook := { elapsedTime := 0, state := TimerState.running,
                  currentEntry := some (startRecord s0 pid), startTimeRef := s0,
                  pausedTimeRef := 0, isSyncing := false, syncError := false },
        localStore := some (startRecord s0 pid), dbTimer := some (startRecord s0 pid),
        entries := [] } := rfl
  rw [h1]
  simp only [tickEffect, pause, resume, stop, afterDbWrite, completedFrom,
    MILLISECONDS_PER_SECOND, e1, e2]
  norm_num
  exact e2

end WorkTracker
